import Mathlib

/-!
Verification of the Query Understanding & Response Synthesis Engine of the
Azure Services Explorer (src/app.py): the keyword classifier
(`search_services`), the casual-intent detector (`is_casual_conversation`)
and the response synthesizer (`generate_simple_response`) are embedded as
total Lean functions over an explicit catalog of resource records, and the
spec's claims about them are settled as theorems.
-/

namespace MyWest

/-- Python `str.lower()` restricted to the ASCII inputs the engine handles. -/
def pyLower (s : String) : String :=
  String.mk (s.data.map Char.toLower)

/-- Python `str.strip()`: drop leading and trailing whitespace. -/
def pyStrip (s : String) : String :=
  String.mk (((s.data.dropWhile Char.isWhitespace).reverse.dropWhile Char.isWhitespace).reverse)

/-- Whether the first list is an initial segment of the second, on characters. -/
def headMatch : List Char → List Char → Bool
  | [], _ => true
  | _ :: _, [] => false
  | a :: as, b :: bs => a == b && headMatch as bs

/-- Whether `needle` occurs as a contiguous sublist of the second argument. -/
def hasSub (needle : List Char) : List Char → Bool
  | [] => headMatch needle []
  | c :: cs => headMatch needle (c :: cs) || hasSub needle cs

/-- Python `needle in haystack` on strings: substring containment. -/
def pyIn (needle haystack : String) : Bool :=
  hasSub needle.data haystack.data

/-- Helper for `pySplit`: split a character list on whitespace runs,
discarding empty pieces, accumulating the current word reversed. -/
def splitWsAux : List Char → List Char → List (List Char)
  | [], acc => if acc.isEmpty then [] else [acc.reverse]
  | c :: cs, acc =>
    if c.isWhitespace then
      if acc.isEmpty then splitWsAux cs [] else acc.reverse :: splitWsAux cs []
    else splitWsAux cs (c :: acc)

/-- Python `str.split()` with no argument: split on whitespace runs, no empty
pieces. -/
def pySplit (s : String) : List String :=
  (splitWsAux s.data []).map String.mk

/-- Python `query.replace(<question mark>, <empty>).replace(<comma>, <empty>)`:
remove every question mark and comma. -/
def removePunct (s : String) : String :=
  String.mk (s.data.filter (fun c => !(c == '?') && !(c == ',')))

/-- One catalog entry, as built in `get_deployable_resources_in_region`:
`provider`, `resource_type`, `display_name` and (up to three) api versions. -/
structure ResourceRecord where
  provider : String
  resource_type : String
  display_name : String
  api_versions : List String
  deriving DecidableEq, Repr

/-- The `service_mappings` table of `search_services` (src/app.py), in its
literal insertion order: search phrase to provider namespaces. -/
def service_mappings : List (String × List String) :=
  [ ("sql", ["microsoft.sql"]),
    ("azure sql", ["microsoft.sql"]),
    ("sql server", ["microsoft.sql"]),
    ("sql database", ["microsoft.sql"]),
    ("postgres", ["microsoft.dbforpostgresql"]),
    ("postgresql", ["microsoft.dbforpostgresql"]),
    ("mysql", ["microsoft.dbformysql"]),
    ("maria", ["microsoft.dbformariadb"]),
    ("mariadb", ["microsoft.dbformariadb"]),
    ("cosmos", ["microsoft.documentdb"]),
    ("cosmosdb", ["microsoft.documentdb"]),
    ("redis", ["microsoft.cache"]),
    ("kubernetes", ["microsoft.kubernetes", "microsoft.containerservice"]),
    ("aks", ["microsoft.containerservice"]),
    ("container", ["microsoft.containerinstance", "microsoft.containerregistry", "microsoft.containerservice"]),
    ("vm", ["microsoft.compute"]),
    ("virtual machine", ["microsoft.compute"]),
    ("storage", ["microsoft.storage"]),
    ("blob", ["microsoft.storage"]),
    ("function", ["microsoft.web"]),
    ("functions", ["microsoft.web"]),
    ("app service", ["microsoft.web"]),
    ("logic app", ["microsoft.logic"]),
    ("key vault", ["microsoft.keyvault"]),
    ("keyvault", ["microsoft.keyvault"]),
    ("cognitive", ["microsoft.cognitiveservices"]),
    ("ai", ["microsoft.cognitiveservices", "microsoft.machinelearningservices"]),
    ("machine learning", ["microsoft.machinelearningservices"]),
    ("event hub", ["microsoft.eventhub"]),
    ("eventhub", ["microsoft.eventhub"]),
    ("service bus", ["microsoft.servicebus"]),
    ("servicebus", ["microsoft.servicebus"]) ]

/-- The `stop_words` set of `search_services` (src/app.py). -/
def stop_words : List String :=
  [ "is", "are", "the", "a", "an", "in", "available", "does", "do", "can", "i", "use",
    "deploy", "what", "which", "how", "about", "tell", "me", "show", "get", "have",
    "malaysia", "west", "region", "azure", "service", "services" ]

/-- The records whose lowercased provider lies in the namespace list `provs`:
the inner collection loop of the term-mapping phase of `search_services`. -/
def mappingHits (services : List ResourceRecord) (provs : List String) : List ResourceRecord :=
  services.filter (fun s => provs.contains (pyLower s.provider))

/-- The term-mapping loop of `search_services`: scan the mapping in order; a
phrase contained in the lowercased query whose hit list is non-empty returns
those hits; otherwise the scan continues, and `none` means fall through to
free-token search. -/
def mappingSearch : List (String × List String) → String → List ResourceRecord → Option (List ResourceRecord)
  | [], _, _ => none
  | (term, provs) :: rest, ql, services =>
    if pyIn term ql then
      if (mappingHits services provs).isEmpty then mappingSearch rest ql services
      else some (mappingHits services provs)
    else mappingSearch rest ql services

/-- Keyword extraction of `search_services`: remove question marks and commas,
split on whitespace, drop stop words and words of length at most 2. -/
def extractKeywords (ql : String) : List String :=
  (pySplit (removePunct ql)).filter (fun w => !(stop_words.contains w) && decide (w.length > 2))

/-- Free-token phase of `search_services`: keep each record some keyword of
which is a substring of its lowercased display name, provider or resource
type (the inner `break` makes each record appear at most once). -/
def keywordSearch (keywords : List String) (services : List ResourceRecord) : List ResourceRecord :=
  services.filter (fun s =>
    keywords.any (fun k =>
      pyIn k (pyLower s.display_name) || pyIn k (pyLower s.provider) || pyIn k (pyLower s.resource_type)))

/-- The keyword classifier `search_services` of src/app.py: term-mapping
lookup on the lowercased query, free-token search when no mapping phrase
yields a non-empty hit list. -/
def search_services (query : String) (services : List ResourceRecord) : List ResourceRecord :=
  match mappingSearch service_mappings (pyLower query) services with
  | some ms => ms
  | none => keywordSearch (extractKeywords (pyLower query)) services

/-- The `greetings` list of `is_casual_conversation` (src/app.py). -/
def greetings : List String :=
  [ "hi", "hello", "hey", "hi there", "hello there", "hey there",
    "good morning", "good afternoon", "good evening", "howdy",
    "greetings", "hiya", "yo", "sup", "what's up", "whats up" ]

/-- The `how_are_you` phrase list of `is_casual_conversation` (src/app.py). -/
def how_are_you_phrases : List String :=
  ["how are you", "how's it going", "how are you doing", "what's going on"]

/-- The `thanks` phrase list of `is_casual_conversation` (src/app.py). -/
def thanks_phrases : List String :=
  ["thank you", "thanks", "thx", "ty", "appreciate it", "cheers"]

/-- The `help_phrases` list of `is_casual_conversation` (src/app.py). -/
def help_phrases : List String :=
  ["help", "what can you do", "what do you do", "how does this work"]

/-- The fixed onboarding reply returned on a greeting match (src/app.py). -/
def greeting_reply : String :=
  "👋 Hello! I'm here to help you explore Azure services available in the Malaysia West region. You can ask me questions like:\n\n• What services are available?\n• Is Azure SQL available?\n• Tell me about container services\n• How many services are there?\n\nWhat would you like to know?"

/-- The canned reply for a how-are-you phrase (src/app.py). -/
def how_are_you_reply : String :=
  "😊 I'm doing great, thanks for asking! I'm ready to help you explore Azure services in the Malaysia West region. What would you like to know about?"

/-- The canned gratitude reply for a thanks phrase (src/app.py). -/
def thanks_reply : String :=
  "You're welcome! 😊 Feel free to ask if you have more questions about Azure services in Malaysia West."

/-- The canned reply for a help phrase (src/app.py). -/
def help_reply : String :=
  "🤖 I'm an Azure Services Explorer for the Malaysia West region. I can help you:\n\n• Find out which Azure services are available in Malaysia West\n• Search for specific services (e.g., 'storage', 'compute', 'AI')\n• Get service counts and summaries\n• Answer questions about Azure capabilities in this region\n\nJust type your question and I'll do my best to help!"

/-- The casual-intent detector `is_casual_conversation` of src/app.py:
lowercase and strip the question, check exact greeting matches (with optional
trailing exclamation mark or period), then substring containment against the
how-are-you, thanks and help phrase lists, in that order. -/
def is_casual_conversation (question : String) : Bool × String :=
  let ql := pyStrip (pyLower question)
  if greetings.any (fun g => ql == g || ql == g ++ "!" || ql == g ++ ".") then
    (true, greeting_reply)
  else if how_are_you_phrases.any (fun p => pyIn p ql) then
    (true, how_are_you_reply)
  else if thanks_phrases.any (fun p => pyIn p ql) then
    (true, thanks_reply)
  else if help_phrases.any (fun p => pyIn p ql) then
    (true, help_reply)
  else
    (false, "")

/-- The count summary of the how-many branch of `generate_simple_response`:
the catalog size and the size of the Python `set` of providers, modelled as
the length of the deduplicated provider list. -/
def howManyMsg (services : List ResourceRecord) : String :=
  "There are " ++ toString services.length ++ " Azure resource types available in Malaysia West from " ++ toString ((services.map (fun s => s.provider)).dedup).length ++ " different providers."

/-- One step of the provider-count dictionary build of the list-all branch:
increment the entry of an already seen provider, else append it with count 1
(Python dict insertion-order semantics). -/
def bumpCount : List (String × Nat) → String → List (String × Nat)
  | [], p => [(p, 1)]
  | (q, n) :: rest, p => if q == p then (q, n + 1) :: rest else (q, n) :: bumpCount rest p

/-- The provider-count dictionary of the list-all branch, in first-seen
(catalog-encounter) order. -/
def providerCounts (services : List ResourceRecord) : List (String × Nat) :=
  services.foldl (fun acc s => bumpCount acc s.provider) []

/-- One bullet line of the list-all breakdown. -/
def providerCountLine (pc : String × Nat) : String :=
  "• " ++ pc.1 ++ ": " ++ toString pc.2 ++ " resource types"

/-- The list-all / show-all reply of `generate_simple_response`: header, the
first 15 provider-count lines, and the unconditionally appended trailing
marker. -/
def listAllMsg (services : List ResourceRecord) : String :=
  "There are " ++ toString services.length ++ " resource types from " ++ toString (providerCounts services).length ++ " providers available in Malaysia West:\n\n" ++ String.intercalate "\n" (((providerCounts services).take 15).map providerCountLine) ++ "\n\n...and more."

/-- One step of the match-grouping dictionary build: append the resource type
to an already seen provider's list, else append a new provider entry. -/
def addToGroup : List (String × List String) → String → String → List (String × List String)
  | [], p, rt => [(p, [rt])]
  | (q, ts) :: rest, p, rt =>
    if q == p then (q, ts ++ [rt]) :: rest else (q, ts) :: addToGroup rest p rt

/-- Group matches by provider in first-seen order, collecting resource types,
as the `providers` dictionary of `generate_simple_response`. -/
def groupByProvider (ms : List ResourceRecord) : List (String × List String) :=
  ms.foldl (fun acc m => addToGroup acc m.provider m.resource_type) []

/-- The fixed not-found reply of `generate_simple_response`. -/
def notFoundMsg : String :=
  "❌ No services matching your query were found in Malaysia West. Try searching for specific terms like 'container', 'sql', 'storage', 'compute', etc."

/-- The single-match reply of `generate_simple_response`. -/
def singleMsg (m : ResourceRecord) : String :=
  "✅ Yes! **" ++ m.display_name ++ "** is available in Malaysia West."

/-- The full itemized reply for 2 to 10 matches: every matched resource type
under its provider heading. -/
def itemizedMsg (ms : List ResourceRecord) : String :=
  "✅ Found " ++ toString ms.length ++ " matching services in Malaysia West:\n\n" ++
    String.join ((groupByProvider ms).map (fun g =>
      "**" ++ g.1 ++ "**:\n" ++ String.join (g.2.map (fun rt => "  • " ++ rt ++ "\n"))))

/-- The trailing note of the truncated reply. -/
def moreNote (n : Nat) : String :=
  "\n...and " ++ toString n ++ " more providers."

/-- One provider line of the truncated reply: at most 5 resource types and a
plus-N-more suffix when the provider's list was cut. -/
def truncProviderLine (g : String × List String) : String :=
  "**" ++ g.1 ++ "**: " ++ String.intercalate ", " (g.2.take 5) ++
    (if g.2.length > 5 then " (+" ++ toString (g.2.length - 5) ++ " more)" else "") ++ "\n"

/-- The truncated reply for more than 10 matches: first 5 providers only,
and a more-providers note exactly when more than 5 providers matched. -/
def truncatedMsg (ms : List ResourceRecord) : String :=
  "✅ Found " ++ toString ms.length ++ " matching resource types in Malaysia West:\n\n" ++
    String.join (((groupByProvider ms).take 5).map truncProviderLine) ++
    (if (groupByProvider ms).length > 5 then moreNote ((groupByProvider ms).length - 5) else "")

/-- The match-set tiering of `generate_simple_response`: not found, single,
itemized (at most 10), truncated (more than 10). -/
def classifierResponse : List ResourceRecord → String
  | [] => notFoundMsg
  | [m] => singleMsg m
  | m1 :: m2 :: rest =>
    if (m1 :: m2 :: rest).length ≤ 10 then itemizedMsg (m1 :: m2 :: rest)
    else truncatedMsg (m1 :: m2 :: rest)

/-- The response synthesizer `generate_simple_response` of src/app.py: casual
short-circuit, how-many count summary, list-all breakdown, then the keyword
classifier's tiered reply. -/
def generate_simple_response (question : String) (services : List ResourceRecord) : String :=
  if (is_casual_conversation question).1 then (is_casual_conversation question).2
  else if pyIn "how many" (pyLower question) then howManyMsg services
  else if pyIn "list all" (pyLower question) || pyIn "show all" (pyLower question) then listAllMsg services
  else classifierResponse (search_services question services)

/-- Modelled from claim C1's words, for refinement comparison with
`search_services` (not from the source): consult only the first mapping
phrase found in the lowercased question; when its record set is empty fall
through directly to free-token matching, never consulting a later phrase. -/
def firstMatchingProvs : List (String × List String) → String → Option (List String)
  | [], _ => none
  | (term, provs) :: rest, ql => if pyIn term ql then some provs else firstMatchingProvs rest ql

/-- Modelled from claim C1's words (see `firstMatchingProvs`): the classifier
the claim describes, compared against the source's `search_services`. -/
def search_services_first_only (query : String) (services : List ResourceRecord) : List ResourceRecord :=
  match firstMatchingProvs service_mappings (pyLower query) with
  | some provs =>
    if (mappingHits services provs).isEmpty then keywordSearch (extractKeywords (pyLower query)) services
    else mappingHits services provs
  | none => keywordSearch (extractKeywords (pyLower query)) services

/-- First-occurrence order of a list of provider names: the key order a
Python dict built by insertion exhibits. -/
def firstSeen (l : List String) : List String :=
  l.foldl (fun acc p => if acc.contains p then acc else acc ++ [p]) []

/-- Lookup of the value stored with the first entry whose key equals `p`
(0 when no entry has that key). -/
def countVal : List (String × Nat) → String → Nat
  | [], _ => 0
  | (q, n) :: rest, p => if q == p then n else countVal rest p

/-- A storage catalog record used as a concrete test input. -/
def stRec : ResourceRecord :=
  ⟨"Microsoft.Storage", "storageAccounts", "Microsoft.Storage/storageAccounts", []⟩

/-- A SQL catalog record used as a concrete test input. -/
def sqlRec : ResourceRecord :=
  ⟨"Microsoft.Sql", "servers", "Microsoft.Sql/servers", []⟩

/-- A Cosmos DB catalog record used as a concrete test input. -/
def cosmosRec : ResourceRecord :=
  ⟨"Microsoft.DocumentDB", "databaseAccounts", "Microsoft.DocumentDB/databaseAccounts", []⟩

/-! Helper lemmas about the branch structure of the synthesizer and the
two phases of the classifier. -/

theorem gsr_casual (q : String) (C : List ResourceRecord)
    (h : (is_casual_conversation q).1 = true) :
    generate_simple_response q C = (is_casual_conversation q).2 := by
  simp [generate_simple_response, h]

theorem gsr_howmany (q : String) (C : List ResourceRecord)
    (hc : (is_casual_conversation q).1 = false)
    (hm : pyIn "how many" (pyLower q) = true) :
    generate_simple_response q C = howManyMsg C := by
  simp [generate_simple_response, hc, hm]

theorem gsr_listall (q : String) (C : List ResourceRecord)
    (hc : (is_casual_conversation q).1 = false)
    (hm : pyIn "how many" (pyLower q) = false)
    (hl : (pyIn "list all" (pyLower q) || pyIn "show all" (pyLower q)) = true) :
    generate_simple_response q C = listAllMsg C := by
  simp [generate_simple_response, hc, hm, hl]

theorem gsr_classifier (q : String) (C : List ResourceRecord)
    (hc : (is_casual_conversation q).1 = false)
    (hm : pyIn "how many" (pyLower q) = false)
    (hl : pyIn "list all" (pyLower q) = false)
    (hs : pyIn "show all" (pyLower q) = false) :
    generate_simple_response q C = classifierResponse (search_services q C) := by
  simp [generate_simple_response, hc, hm, hl, hs]

theorem mappingSearch_sublist (maps : List (String × List String)) :
    ∀ (ql : String) (C ms : List ResourceRecord),
      mappingSearch maps ql C = some ms → List.Sublist ms C := by
  induction maps with
  | nil =>
    intro ql C ms h
    simp [mappingSearch] at h
  | cons p rest ih =>
    intro ql C ms h
    obtain ⟨t, ps⟩ := p
    simp only [mappingSearch] at h
    by_cases h1 : pyIn t ql = true
    · rw [if_pos h1] at h
      by_cases h2 : (mappingHits C ps).isEmpty = true
      · rw [if_pos h2] at h
        exact ih ql C ms h
      · rw [if_neg h2] at h
        obtain rfl : mappingHits C ps = ms := Option.some.inj h
        exact List.filter_sublist C
    · rw [if_neg h1] at h
      exact ih ql C ms h

theorem mappingSearch_found (pre : List (String × List String)) :
    ∀ (t : String) (ps : List String) (post : List (String × List String))
      (ql : String) (C : List ResourceRecord),
      (∀ p ∈ pre, pyIn p.1 ql = true → mappingHits C p.2 = []) →
      pyIn t ql = true → mappingHits C ps ≠ [] →
      mappingSearch (pre ++ (t, ps) :: post) ql C = some (mappingHits C ps) := by
  induction pre with
  | nil =>
    intro t ps post ql C hpre ht hne
    have h2 : ¬((mappingHits C ps).isEmpty = true) := by
      simpa [List.isEmpty_iff] using hne
    simp only [List.nil_append, mappingSearch]
    rw [if_pos ht, if_neg h2]
  | cons p pre ih =>
    intro t ps post ql C hpre ht hne
    obtain ⟨pt, pp⟩ := p
    simp only [List.cons_append, mappingSearch]
    have htail : ∀ r ∈ pre, pyIn r.1 ql = true → mappingHits C r.2 = [] := by
      intro r hr ha
      exact hpre r (by simp [hr]) ha
    by_cases h1 : pyIn pt ql = true
    · have hemp : mappingHits C pp = [] := hpre (pt, pp) (by simp) h1
      rw [if_pos h1, hemp]
      simp only [List.isEmpty_nil, if_true]
      exact ih t ps post ql C htail ht hne
    · rw [if_neg h1]
      exact ih t ps post ql C htail ht hne

theorem mappingSearch_all_empty (maps : List (String × List String)) :
    ∀ (ql : String) (C : List ResourceRecord),
      (∀ p ∈ maps, pyIn p.1 ql = true → mappingHits C p.2 = []) →
      mappingSearch maps ql C = none := by
  induction maps with
  | nil =>
    intro ql C _
    rfl
  | cons p rest ih =>
    intro ql C hall
    obtain ⟨pt, pp⟩ := p
    simp only [mappingSearch]
    have htail : ∀ r ∈ rest, pyIn r.1 ql = true → mappingHits C r.2 = [] := by
      intro r hr ha
      exact hall r (by simp [hr]) ha
    by_cases h1 : pyIn pt ql = true
    · have hemp : mappingHits C pp = [] := hall (pt, pp) (by simp) h1
      rw [if_pos h1, hemp]
      simp only [List.isEmpty_nil, if_true]
      exact ih ql C htail
    · rw [if_neg h1]
      exact ih ql C htail

/-- Claim C6: the casual-intent detector, the keyword classifier and the
response synthesizer are total functions: on every question string and every
catalog each is defined and yields its result (a flag-reply pair, a record
sequence, a reply string) — the embedding has no partiality and no
exceptional path. -/
theorem c6_engine_total (q : String) (C : List ResourceRecord) :
    ∃ (b : Bool) (r : String) (ms : List ResourceRecord) (ans : String),
      is_casual_conversation q = (b, r) ∧ search_services q C = ms ∧
        generate_simple_response q C = ans :=
  ⟨(is_casual_conversation q).1, (is_casual_conversation q).2,
    search_services q C, generate_simple_response q C, rfl, rfl, rfl⟩

/-- Claim C8: for every question and catalog the keyword classifier returns a
sublist of the catalog — records in catalog order, duplicates preserved, each
catalog position contributing at most once — and every returned record is an
element of the catalog. -/
theorem c8_classifier_sublist (q : String) (C : List ResourceRecord) :
    List.Sublist (search_services q C) C ∧ ∀ r ∈ search_services q C, r ∈ C := by
  have hsub : List.Sublist (search_services q C) C := by
    unfold search_services
    cases h : mappingSearch service_mappings (pyLower q) C with
    | some ms => exact mappingSearch_sublist service_mappings (pyLower q) C ms h
    | none =>
      simp only [keywordSearch]
      exact List.filter_sublist C
  exact ⟨hsub, fun r hr => hsub.subset hr⟩

/-- Claim C10: the synthesizer is deterministic — two invocations on the
identical question-catalog pair yield identical output strings. -/
theorem c10_deterministic (qa : String) (Ca : List ResourceRecord)
    (qb : String) (Cb : List ResourceRecord) (hq : qa = qb) (hC : Ca = Cb) :
    generate_simple_response qa Ca = generate_simple_response qb Cb := by
  rw [hq, hC]

/-- Witness for claim C10 at a concrete input. -/
theorem c10_deterministic_witness :
    generate_simple_response "hi" [] = generate_simple_response "hi" [] :=
  c10_deterministic "hi" [] "hi" [] rfl rfl

/-- Claim C1, counterexample: on the question "sql cosmos" with a catalog
holding only a Cosmos DB record, the first matching mapping phrase is "sql"
and its record set is empty, yet `search_services` goes on to consult the
later phrase "cosmos" and returns its records, while the classifier the
claim describes (`search_services_first_only`, which falls through directly
to free-token matching) returns the empty sequence — so first-empty-match
does not fall through to free-token matching. -/
theorem c1_first_match_counterexample :
    pyIn "sql" (pyLower "sql cosmos") = true
    ∧ mappingHits [cosmosRec] ["microsoft.sql"] = []
    ∧ search_services "sql cosmos" [cosmosRec] = [cosmosRec]
    ∧ search_services_first_only "sql cosmos" [cosmosRec] = []
    ∧ search_services "sql cosmos" [cosmosRec] ≠
        search_services_first_only "sql cosmos" [cosmosRec] := by
  refine ⟨by decide, by decide, by decide, by decide, by decide⟩

/-- Claim C1 as amended: term-mapping lookup is first-nonempty-match-wins.
Scanning the mapping table in order, a phrase contained in the lowercased
question whose record set is empty is skipped and later phrases are still
consulted; the first contained phrase whose record set is non-empty supplies
the classifier's result; and only when every contained phrase yields an
empty record set does classification fall through to free-token matching. -/
theorem c1_first_nonempty_mapping_wins (q : String) (C : List ResourceRecord) :
    (∀ (pre : List (String × List String)) (t : String) (ps : List String)
        (post : List (String × List String)),
        service_mappings = pre ++ (t, ps) :: post →
        (∀ p ∈ pre, pyIn p.1 (pyLower q) = true → mappingHits C p.2 = []) →
        pyIn t (pyLower q) = true → mappingHits C ps ≠ [] →
        search_services q C = mappingHits C ps)
    ∧ ((∀ p ∈ service_mappings, pyIn p.1 (pyLower q) = true → mappingHits C p.2 = []) →
        search_services q C = keywordSearch (extractKeywords (pyLower q)) C) := by
  constructor
  · intro pre t ps post hsplit hpre ht hne
    unfold search_services
    rw [hsplit, mappingSearch_found pre t ps post (pyLower q) C hpre ht hne]
  · intro hall
    unfold search_services
    rw [mappingSearch_all_empty service_mappings (pyLower q) C hall]

/-- Witness for the amended claim C1 at a concrete input: the first mapping
phrase "sql" is contained in the question and has catalog hits, so the
classifier returns exactly those hits. -/
theorem c1_first_nonempty_mapping_witness :
    search_services "sql" [sqlRec] = [sqlRec] := by
  have h := (c1_first_nonempty_mapping_wins "sql" [sqlRec]).1
    [] "sql" ["microsoft.sql"] (service_mappings.drop 1)
    (by decide) (by simp) (by decide) (by decide)
  exact h.trans (by decide)

/-- Claim C2, counterexample: the question "how many types" contains
"how many", yet its reply is the canned gratitude reply (the thanks phrase
"ty" occurs inside "types", so the casual-intent detector fires first) and
embeds no count at all — on the empty catalog no character "0" occurs in it. -/
theorem c2_how_many_counterexample :
    pyIn "how many" (pyLower "how many types") = true
    ∧ generate_simple_response "how many types" [] = thanks_reply
    ∧ pyIn "0" thanks_reply = false := by
  refine ⟨by decide, by decide, by decide⟩

/-- Claim C2 as amended: for every catalog and every question containing
"how many" that the casual-intent detector does not claim, the reply embeds
the total record count `C.length` and the number of distinct provider
values of the catalog. -/
theorem c2_count_summary (q : String) (C : List ResourceRecord)
    (hc : (is_casual_conversation q).1 = false)
    (hm : pyIn "how many" (pyLower q) = true) :
    generate_simple_response q C =
      "There are " ++ toString C.length ++
        " Azure resource types available in Malaysia West from " ++
        toString ((C.map (fun s => s.provider)).toFinset.card) ++
        " different providers." := by
  rw [gsr_howmany q C hc hm]
  simp [howManyMsg, List.card_toFinset]

/-- Witness for the amended claim C2 at a concrete two-provider catalog. -/
theorem c2_count_summary_witness :
    generate_simple_response "how many services are there" [stRec, sqlRec] =
      "There are 2 Azure resource types available in Malaysia West from 2 different providers." := by
  have h := c2_count_summary "how many services are there" [stRec, sqlRec]
    (by decide) (by decide)
  exact h.trans (by decide)

/-- Claim C7: with the empty catalog every branch still produces its
well-formed message — every non-casual how-many question reports counts of
zero, and the non-casual, non-aggregate question "storage" makes the
classifier return the empty sequence and the synthesizer the fixed
not-found message. -/
theorem c7_empty_catalog :
    (∀ q : String, (is_casual_conversation q).1 = false →
        pyIn "how many" (pyLower q) = true →
        generate_simple_response q [] =
          "There are 0 Azure resource types available in Malaysia West from 0 different providers.")
    ∧ search_services "storage" [] = []
    ∧ generate_simple_response "storage" [] = notFoundMsg := by
  refine ⟨?_, by decide, by decide⟩
  intro q hc hm
  rw [gsr_howmany q [] hc hm]
  decide

/-- Witness for claim C7 at a concrete how-many question. -/
theorem c7_empty_catalog_witness :
    generate_simple_response "how many services are there" [] =
      "There are 0 Azure resource types available in Malaysia West from 0 different providers." :=
  c7_empty_catalog.1 "how many services are there" (by decide) (by decide)

/-- Claim C9: every question whose lowercased, stripped form equals a string
of the fixed greeting list, optionally followed by a trailing "!" or "." —
so the greeting in any letter case and with any surrounding whitespace —
makes the casual-intent detector return the flag `true` together with the
fixed non-empty onboarding reply. -/
theorem c9_greeting_detected (q g sfx : String) (hg : g ∈ greetings)
    (hs : sfx ∈ ["", "!", "."]) (h : pyStrip (pyLower q) = g ++ sfx) :
    is_casual_conversation q = (true, greeting_reply) ∧ greeting_reply ≠ "" := by
  refine ⟨?_, by decide⟩
  have hany : (greetings.any (fun g2 =>
      pyStrip (pyLower q) == g2 || pyStrip (pyLower q) == g2 ++ "!" ||
        pyStrip (pyLower q) == g2 ++ ".")) = true := by
    rw [List.any_eq_true]
    refine ⟨g, hg, ?_⟩
    rw [h]
    simp only [List.mem_cons, List.not_mem_nil, or_false] at hs
    rcases hs with rfl | rfl | rfl
    · simp [String.append_empty]
    · simp
    · simp
  simp only [is_casual_conversation]
  rw [hany]
  simp

/-- Witness for claim C9: an uppercase greeting with surrounding whitespace
and a trailing exclamation mark. -/
theorem c9_greeting_witness :
    is_casual_conversation "  HELLO!  " = (true, greeting_reply) ∧ greeting_reply ≠ "" :=
  c9_greeting_detected "  HELLO!  " "hello" "!" (by decide) (by decide) (by decide)

/-- Claim C5: every question whose lowercased, stripped form contains a
thanks phrase — the list includes the two-letter fragment "ty" — and which
neither exactly matches a greeting (with optional trailing "!" or ".") nor
contains a how-are-you phrase is claimed by the detector with the canned
gratitude reply; consequently, for every catalog, questions containing the
ordinary words "types" or "security" get the gratitude reply and never
reach the keyword classifier. -/
theorem c5_thanks_fragment_casual :
    (∀ q : String,
        (greetings.any (fun g => pyStrip (pyLower q) == g ||
            pyStrip (pyLower q) == g ++ "!" || pyStrip (pyLower q) == g ++ ".")) = false →
        (how_are_you_phrases.any (fun p => pyIn p (pyStrip (pyLower q)))) = false →
        (thanks_phrases.any (fun p => pyIn p (pyStrip (pyLower q)))) = true →
        is_casual_conversation q = (true, thanks_reply))
    ∧ (∀ C : List ResourceRecord,
        generate_simple_response "what vm types are available" C = thanks_reply)
    ∧ (∀ C : List ResourceRecord,
        generate_simple_response "tell me about security" C = thanks_reply) := by
  refine ⟨?_, ?_, ?_⟩
  · intro q hg hh ht
    simp only [is_casual_conversation]
    rw [hg, hh, ht]
    simp
  · intro C
    have h : is_casual_conversation "what vm types are available" = (true, thanks_reply) := by
      decide
    simp [generate_simple_response, h]
  · intro C
    have h : is_casual_conversation "tell me about security" = (true, thanks_reply) := by
      decide
    simp [generate_simple_response, h]

/-- Witness for claim C5: the single word "security" is classified casual
with the gratitude reply. -/
theorem c5_thanks_fragment_witness :
    is_casual_conversation "security" = (true, thanks_reply) :=
  c5_thanks_fragment_casual.1 "security" (by decide) (by decide) (by decide)

/-- Claim C4: on the classifier branch (non-casual question, no "how many",
no "list all" or "show all") the synthesizer's tier selection is exact in
the match count: exactly 1 match yields the single affirmative sentence
naming the match's display name; 2 through 10 matches (10 included) yield
the full itemized per-provider listing of every matched resource type; 11
or more matches yield the truncated form — first 5 providers, at most 5
resource types each with a plus-N-more suffix per truncated provider, and
the more-providers note exactly when more than 5 providers matched. -/
theorem c4_tier_boundaries (q : String) (C : List ResourceRecord)
    (hc : (is_casual_conversation q).1 = false)
    (hm : pyIn "how many" (pyLower q) = false)
    (hl : pyIn "list all" (pyLower q) = false)
    (hs : pyIn "show all" (pyLower q) = false) :
    (∀ m : ResourceRecord, search_services q C = [m] →
        generate_simple_response q C = singleMsg m)
    ∧ (2 ≤ (search_services q C).length → (search_services q C).length ≤ 10 →
        generate_simple_response q C = itemizedMsg (search_services q C))
    ∧ (11 ≤ (search_services q C).length →
        generate_simple_response q C =
          "✅ Found " ++ toString (search_services q C).length ++
            " matching resource types in Malaysia West:\n\n" ++
            String.join (((groupByProvider (search_services q C)).take 5).map truncProviderLine) ++
            (if (groupByProvider (search_services q C)).length > 5 then
              moreNote ((groupByProvider (search_services q C)).length - 5)
            else "")) := by
  have hg := gsr_classifier q C hc hm hl hs
  refine ⟨?_, ?_, ?_⟩
  · intro m hms
    rw [hg, hms]
    rfl
  · intro h2 h10
    rw [hg]
    rcases hE : search_services q C with _ | ⟨m1, _ | ⟨m2, rest⟩⟩
    · rw [hE] at h2
      simp at h2
    · rw [hE] at h2
      simp at h2
    · rw [hE] at h10
      simp only [classifierResponse]
      rw [if_pos h10]
  · intro h11
    rw [hg]
    rcases hE : search_services q C with _ | ⟨m1, _ | ⟨m2, rest⟩⟩
    · rw [hE] at h11
      simp at h11
    · rw [hE] at h11
      simp at h11
    · rw [hE] at h11
      have hgt : ¬((m1 :: m2 :: rest).length ≤ 10) := by
        simp only [List.length_cons] at h11 ⊢
        omega
      simp only [classifierResponse]
      rw [if_neg hgt]
      rfl

/-- Witness for claim C4: a one-record storage catalog hits the
single-match tier. -/
theorem c4_tier_boundaries_witness :
    generate_simple_response "storage" [stRec] = singleMsg stRec :=
  (c4_tier_boundaries "storage" [stRec]
    (by decide) (by decide) (by decide) (by decide)).1 stRec (by decide)

theorem bumpCount_keys (acc : List (String × Nat)) (p : String) :
    (bumpCount acc p).map Prod.fst =
      if (acc.map Prod.fst).contains p then acc.map Prod.fst
      else acc.map Prod.fst ++ [p] := by
  induction acc with
  | nil => simp [bumpCount]
  | cons hd t ih =>
    obtain ⟨q, n⟩ := hd
    by_cases hqp : q = p
    · subst hqp
      simp [bumpCount]
    · have hb : (q == p) = false := by
        simp [hqp]
      have hb2 : (p == q) = false := by
        simp [Ne.symm hqp]
      simp only [bumpCount, hb, Bool.false_eq_true, if_false, List.map_cons,
        List.contains_cons, hb2, Bool.false_or, ih]
      by_cases hin : (t.map Prod.fst).contains p = true
      · rw [if_pos hin, if_pos hin]
      · rw [if_neg hin, if_neg hin]
        simp

theorem foldl_bump_keys (l : List ResourceRecord) :
    ∀ acc : List (String × Nat),
      ((l.foldl (fun a s => bumpCount a s.provider) acc).map Prod.fst) =
        (l.map (fun s => s.provider)).foldl
          (fun a p => if a.contains p then a else a ++ [p]) (acc.map Prod.fst) := by
  induction l with
  | nil =>
    intro acc
    simp
  | cons s t ih =>
    intro acc
    simp only [List.foldl_cons, List.map_cons]
    rw [ih (bumpCount acc s.provider), bumpCount_keys]

theorem providerCounts_keys (C : List ResourceRecord) :
    (providerCounts C).map Prod.fst = firstSeen (C.map (fun s => s.provider)) := by
  unfold providerCounts firstSeen
  rw [foldl_bump_keys]
  rfl

theorem countVal_bump_self (acc : List (String × Nat)) (p : String) :
    countVal (bumpCount acc p) p = countVal acc p + 1 := by
  induction acc with
  | nil => simp [bumpCount, countVal]
  | cons hd t ih =>
    obtain ⟨q, n⟩ := hd
    by_cases hqp : q = p
    · subst hqp
      simp [bumpCount, countVal]
    · have hb : (q == p) = false := by
        simp [hqp]
      simp [bumpCount, countVal, hb, ih]

theorem countVal_bump_ne (acc : List (String × Nat)) (p r : String) (hpr : p ≠ r) :
    countVal (bumpCount acc p) r = countVal acc r := by
  induction acc with
  | nil => simp [bumpCount, countVal, hpr]
  | cons hd t ih =>
    obtain ⟨q, n⟩ := hd
    by_cases hqp : q = p
    · subst hqp
      simp [bumpCount, countVal, hpr]
    · have hb : (q == p) = false := by
        simp [hqp]
      by_cases hqr : q = r
      · subst hqr
        simp [bumpCount, countVal, hb]
      · have hb2 : (q == r) = false := by
          simp [hqr]
        simp [bumpCount, countVal, hb, hb2, ih]

theorem countVal_foldl (l : List ResourceRecord) :
    ∀ (acc : List (String × Nat)) (p : String),
      countVal (l.foldl (fun a s => bumpCount a s.provider) acc) p =
        countVal acc p + (l.filter (fun s => s.provider == p)).length := by
  induction l with
  | nil =>
    intro acc p
    simp
  | cons s t ih =>
    intro acc p
    simp only [List.foldl_cons]
    rw [ih]
    by_cases hsp : s.provider = p
    · rw [hsp, countVal_bump_self]
      simp only [List.filter_cons, hsp, beq_self_eq_true, if_true, List.length_cons]
      omega
    · have hb : (s.provider == p) = false := by
        simp [hsp]
      rw [countVal_bump_ne acc s.provider p hsp]
      simp [List.filter_cons, hb]

theorem providerCounts_val (C : List ResourceRecord) (p : String) :
    countVal (providerCounts C) p = (C.filter (fun s => s.provider == p)).length := by
  unfold providerCounts
  rw [countVal_foldl]
  simp [countVal]

/-- Claim C3, counterexample: on the one-provider catalog `[stRec]`, the
reply to "list all" still carries the trailing "...and more." marker even
though only 1 distinct provider (far fewer than 15) exists — the marker is
appended unconditionally, not only when more than 15 providers exist.
Moreover a non-casual question containing both "list all" and "how many"
is answered by the count summary, not the provider breakdown. -/
theorem c3_list_all_counterexample :
    pyIn "...and more." (generate_simple_response "list all" [stRec]) = true
    ∧ ([stRec].map (fun s => s.provider)).dedup.length = 1
    ∧ pyIn "list all" (pyLower "list all how many") = true
    ∧ (is_casual_conversation "list all how many").1 = false
    ∧ generate_simple_response "list all how many" [stRec] = howManyMsg [stRec]
    ∧ generate_simple_response "list all how many" [stRec] ≠ listAllMsg [stRec] := by
  refine ⟨by decide, by decide, by decide, by decide, by decide, by decide⟩

/-- Claim C3 as amended: for every catalog and every non-casual question
that does not contain "how many" but contains "list all" or "show all", the
synthesizer returns the per-provider count breakdown — providers in
catalog-encounter (first-seen) order, truncated to the first 15, each with
the number of its catalog records — and the trailing "...and more." marker
is appended unconditionally, whether or not more than 15 providers exist. -/
theorem c3_list_all_breakdown (q : String) (C : List ResourceRecord)
    (hc : (is_casual_conversation q).1 = false)
    (hm : pyIn "how many" (pyLower q) = false)
    (hl : (pyIn "list all" (pyLower q) || pyIn "show all" (pyLower q)) = true) :
    generate_simple_response q C =
      "There are " ++ toString C.length ++ " resource types from " ++
        toString (providerCounts C).length ++
        " providers available in Malaysia West:\n\n" ++
        String.intercalate "\n" (((providerCounts C).take 15).map providerCountLine) ++
        "\n\n...and more."
    ∧ (providerCounts C).map Prod.fst = firstSeen (C.map (fun s => s.provider))
    ∧ ∀ p : String,
        countVal (providerCounts C) p = (C.filter (fun s => s.provider == p)).length := by
  refine ⟨?_, providerCounts_keys C, fun p => providerCounts_val C p⟩
  rw [gsr_listall q C hc hm hl]
  rfl

/-- Witness for the amended claim C3 at a concrete one-provider catalog. -/
theorem c3_list_all_breakdown_witness :
    generate_simple_response "list all" [stRec] =
      "There are 1 resource types from 1 providers available in Malaysia West:\n\n• Microsoft.Storage: 1 resource types\n\n...and more." := by
  have h := (c3_list_all_breakdown "list all" [stRec]
    (by decide) (by decide) (by decide)).1
  exact h.trans (by decide)

end MyWest
